import Mathlib

/-!
Shallow embedding of the record validators of the repository:
`ex1/alien_contact.py` (the `AlienContact` pydantic model) and
`ex2/space_crew.py` (the `CrewMember` and `SpaceMission` pydantic models).

Python strings are Lean `String` (lengths count characters, as `len` does),
Python `int` is `Int`, Python `float` is `Rat` (every constant compared
against in the source is decimal, so rationals model the comparisons
exactly), `datetime` is an uninterpreted stamp (never inspected by any
constraint), `Optional[str]` is `Option String`.

pydantic semantics modelled:
- field constraints (`Field(min_length/max_length/ge/le)`) are checked for
  every explicitly provided field and the violations aggregated, in
  declaration order, nested crew members reported with their index path;
- a declared default is NOT validated (`validate_default` is false): an
  omitted field takes its default with no constraint check. The only
  default whose constraints could fail is the mission `crew`
  (`default_factory=list` against `min_length=1`), modelled by
  `SpaceMissionInput`; the contact defaults (`message_received=None`,
  `is_verified=False`) carry no field constraint that a default could
  violate, so for contacts the provided/defaulted distinction is inert;
- a `@model_validator(mode="after")` runs only when all field constraints
  passed; its `raise ValueError(msg)` is `.error msg` and is fail-fast;
- construction (`Model(...)`) succeeds iff no field violation and no
  validator error; the constructed instance carries the input field values
  with defaults filled in.
-/

namespace CosmicValidation

/-- Timestamps are never inspected by any field constraint or cross-field
rule of the source, only stored; an integer stamp suffices. -/
abbrev DateTime := Int

/-- Character count of a string, Python `len`. -/
def strLen (s : String) : Nat := s.data.length

/-- Python `s.startswith(p)`. -/
def strStartsWith (p s : String) : Bool := p.data.isPrefixOf s.data

/-! ## ex1: alien_contact.py -/

/-- `ContactType(Enum)` of `ex1/alien_contact.py`. -/
inductive ContactType where
  | RADIO
  | VISUAL
  | PHYSICAL
  | TELEPATHIC
deriving DecidableEq

/-- The `AlienContact` pydantic model: field values after type coercion.
Defaults mirror the source (`message_received=None`, `is_verified=False`). -/
structure AlienContact where
  contact_id : String
  timestamp : DateTime
  location : String
  contact_type : ContactType
  signal_strength : Rat
  duration_minutes : Int
  message_received : Option String := none
  witness_count : Int
  is_verified : Bool := false
deriving DecidableEq

/-- Field-constraint violations of an `AlienContact`, aggregated in
declaration order: `contact_id` 5–15 chars, `location` 3–100 chars,
`signal_strength` 0–10, `duration_minutes` 1–1440, `message_received`
at most 500 chars when present, `witness_count` 1–100. -/
def AlienContact.fieldViolations (c : AlienContact) : List String :=
  (if 5 ≤ strLen c.contact_id ∧ strLen c.contact_id ≤ 15 then []
   else ["contact_id: length out of range 5..15"]) ++
  (if 3 ≤ strLen c.location ∧ strLen c.location ≤ 100 then []
   else ["location: length out of range 3..100"]) ++
  (if 0 ≤ c.signal_strength ∧ c.signal_strength ≤ 10 then []
   else ["signal_strength: value out of range 0..10"]) ++
  (if 1 ≤ c.duration_minutes ∧ c.duration_minutes ≤ 1440 then []
   else ["duration_minutes: value out of range 1..1440"]) ++
  (match c.message_received with
   | none => []
   | some s => if strLen s ≤ 500 then []
               else ["message_received: length above maximum 500"]) ++
  (if 1 ≤ c.witness_count ∧ c.witness_count ≤ 100 then []
   else ["witness_count: value out of range 1..100"])

/-- The `@model_validator(mode="after")` of `AlienContact`, line for line:
four sequential checks, each raising (fail-fast) when violated, then
`return self`. -/
def AlienContact.validate (c : AlienContact) : Except String AlienContact :=
  if !(strStartsWith "AC" c.contact_id) then
    .error "Contact ID must start with 'AC'"
  else if !c.is_verified then
    .error "Physical contact reports must be verified"
  else if c.contact_type = ContactType.TELEPATHIC ∧ c.witness_count < 3 then
    .error "Telepathic contact requires at least 3 witnesses"
  else if 7 < c.signal_strength ∧ c.message_received = none then
    .error "Strong signals (> 7.0) should include received messages"
  else
    .ok c

/-- Full construction of an `AlienContact`: aggregated field violations
first; only when none exist does the model validator run. -/
def AlienContact.construct (c : AlienContact) : Except (List String) AlienContact :=
  if c.fieldViolations = [] then
    match c.validate with
    | .ok r => .ok r
    | .error e => .error [e]
  else
    .error c.fieldViolations

/-! ## ex2: space_crew.py -/

/-- `Rank(Enum)` of `ex2/space_crew.py`. -/
inductive Rank where
  | CADET
  | OFFICER
  | LIEUTENANT
  | CAPTAIN
  | COMMANDER
deriving DecidableEq

/-- The `CrewMember` pydantic model; `is_active` defaults to true as in the
source. `CrewMember` has no model validator of its own. -/
structure CrewMember where
  member_id : String
  name : String
  rank : Rank
  age : Int
  specialization : String
  years_experience : Int
  is_active : Bool := true
deriving DecidableEq

/-- Field-constraint violations of a `CrewMember`, in declaration order:
`member_id` 3–10 chars, `name` 2–50 chars, `age` 18–80,
`specialization` 3–30 chars, `years_experience` 0–50. -/
def CrewMember.fieldViolations (cr : CrewMember) : List String :=
  (if 3 ≤ strLen cr.member_id ∧ strLen cr.member_id ≤ 10 then []
   else ["member_id: length out of range 3..10"]) ++
  (if 2 ≤ strLen cr.name ∧ strLen cr.name ≤ 50 then []
   else ["name: length out of range 2..50"]) ++
  (if 18 ≤ cr.age ∧ cr.age ≤ 80 then []
   else ["age: value out of range 18..80"]) ++
  (if 3 ≤ strLen cr.specialization ∧ strLen cr.specialization ≤ 30 then []
   else ["specialization: length out of range 3..30"]) ++
  (if 0 ≤ cr.years_experience ∧ cr.years_experience ≤ 50 then []
   else ["years_experience: value out of range 0..50"])

/-- The `SpaceMission` pydantic model. Defaults mirror the source:
`crew` defaults to the empty list (`default_factory=list`) and
`mission_status` to `"planned"`. -/
structure SpaceMission where
  mission_id : String
  mission_name : String
  destination : String
  launch_date : DateTime
  duration_days : Int
  crew : List CrewMember := []
  mission_status : String := "planned"
  budget_millions : Rat
deriving DecidableEq

/-- Field-constraint violations of a `SpaceMission` whose every field was
explicitly provided, in declaration order, with the nested crew members
each run through the full `CrewMember` field check and reported under
their `crew.<index>.` path: `mission_id` 5–15 chars, `mission_name`
3–100 chars, `destination` 3–50 chars, `duration_days` 1–3650, `crew`
1–12 entries, `budget_millions` 1–10000. pydantic applies these checks
only to provided values, never to a defaulted field; construction with
`crew` omitted is modelled by `SpaceMissionInput`. -/
def SpaceMission.fieldViolations (m : SpaceMission) : List String :=
  (if 5 ≤ strLen m.mission_id ∧ strLen m.mission_id ≤ 15 then []
   else ["mission_id: length out of range 5..15"]) ++
  (if 3 ≤ strLen m.mission_name ∧ strLen m.mission_name ≤ 100 then []
   else ["mission_name: length out of range 3..100"]) ++
  (if 3 ≤ strLen m.destination ∧ strLen m.destination ≤ 50 then []
   else ["destination: length out of range 3..50"]) ++
  (if 1 ≤ m.duration_days ∧ m.duration_days ≤ 3650 then []
   else ["duration_days: value out of range 1..3650"]) ++
  (if 1 ≤ m.crew.length ∧ m.crew.length ≤ 12 then []
   else ["crew: list length out of range 1..12"]) ++
  (m.crew.enum.map (fun p =>
    p.2.fieldViolations.map (fun v => "crew." ++ toString p.1 ++ "." ++ v))).flatten ++
  (if 1 ≤ m.budget_millions ∧ m.budget_millions ≤ 10000 then []
   else ["budget_millions: value out of range 1..10000"])

/-- The `found` loop of `SpaceMission.validate`: some crew member has rank
`COMMANDER` or `CAPTAIN`. -/
def hasCommandRank (crew : List CrewMember) : Bool :=
  crew.any fun cr => cr.rank = Rank.COMMANDER ∨ cr.rank = Rank.CAPTAIN

/-- The `crew_h_exp` counter of `SpaceMission.validate`: how many crew
members have `years_experience > 5` (strict). -/
def experiencedCount (crew : List CrewMember) : Nat :=
  crew.countP fun cr => decide (5 < cr.years_experience)

/-- The `@model_validator(mode="after")` of `SpaceMission`, line for line:
identifier check, command-rank check (guarded by `if self.crew:`, so it
never fires on an empty crew), long-mission experience check, inactive
check. The Python body falls off the end without `return self`; under
direct construction (`SpaceMission(...)`, the only construction the
repository performs) pydantic has already populated the instance, so a
run that raises nothing yields the populated record, modelled `.ok m`. -/
def SpaceMission.validate (m : SpaceMission) : Except String SpaceMission :=
  if !(strStartsWith "M" m.mission_id) then
    .error "Mission ID must start with 'M'"
  else if m.crew ≠ [] ∧ hasCommandRank m.crew = false then
    .error "Must have at least one Commander or Captain"
  else if 365 < m.duration_days ∧ experiencedCount m.crew * 2 < m.crew.length then
    .error "Long missions (> 365 days) need 50% experienced crew (5+ years)"
  else if m.crew ≠ [] ∧ m.crew.any (fun cr => cr.is_active == false) then
    .error "All crew members must be active"
  else
    .ok m

/-- Full construction of a `SpaceMission` from explicitly provided field
values: aggregated field violations (nested crew members included)
first; only when none exist does the model validator run. -/
def SpaceMission.construct (m : SpaceMission) : Except (List String) SpaceMission :=
  if m.fieldViolations = [] then
    match m.validate with
    | .ok r => .ok r
    | .error e => .error [e]
  else
    .error m.fieldViolations

/-- Raw constructor input for `SpaceMission`, distinguishing the fields
with a declared default (`crew`, `mission_status`) when omitted (`none`)
from when explicitly provided (`some _`); the remaining fields have no
default and must be provided. pydantic does not validate declared
defaults (`validate_default` is false), so an omitted field takes its
default without its constraints being checked. -/
structure SpaceMissionInput where
  mission_id : String
  mission_name : String
  destination : String
  launch_date : DateTime
  duration_days : Int
  crew : Option (List CrewMember) := none
  mission_status : Option String := none
  budget_millions : Rat
deriving DecidableEq

/-- Assembles the mission record from a raw input: omitted fields take
their declared defaults (`crew` the empty list from `default_factory`,
`mission_status` the string `"planned"`). -/
def SpaceMissionInput.toMission (i : SpaceMissionInput) : SpaceMission :=
  { mission_id := i.mission_id, mission_name := i.mission_name,
    destination := i.destination, launch_date := i.launch_date,
    duration_days := i.duration_days, crew := i.crew.getD [],
    mission_status := i.mission_status.getD "planned",
    budget_millions := i.budget_millions }

/-- Field-constraint violations of a raw input: the declared checks run
on the explicitly provided values only. In particular an omitted `crew`
takes the default `[]` with neither the 1–12 length check nor any nested
validation, because pydantic skips validation of defaults. -/
def SpaceMissionInput.fieldViolations (i : SpaceMissionInput) : List String :=
  (if 5 ≤ strLen i.mission_id ∧ strLen i.mission_id ≤ 15 then []
   else ["mission_id: length out of range 5..15"]) ++
  (if 3 ≤ strLen i.mission_name ∧ strLen i.mission_name ≤ 100 then []
   else ["mission_name: length out of range 3..100"]) ++
  (if 3 ≤ strLen i.destination ∧ strLen i.destination ≤ 50 then []
   else ["destination: length out of range 3..50"]) ++
  (if 1 ≤ i.duration_days ∧ i.duration_days ≤ 3650 then []
   else ["duration_days: value out of range 1..3650"]) ++
  (match i.crew with
   | none => []
   | some l =>
     (if 1 ≤ l.length ∧ l.length ≤ 12 then []
      else ["crew: list length out of range 1..12"]) ++
     (l.enum.map (fun p =>
       p.2.fieldViolations.map (fun v => "crew." ++ toString p.1 ++ "." ++ v))).flatten) ++
  (if 1 ≤ i.budget_millions ∧ i.budget_millions ≤ 10000 then []
   else ["budget_millions: value out of range 1..10000"])

/-- Full construction of a `SpaceMission` from a raw input: aggregated
field violations of the provided values first; when none exist the
defaults are filled in and the model validator runs on the assembled
record. -/
def SpaceMissionInput.construct (i : SpaceMissionInput) : Except (List String) SpaceMission :=
  if i.fieldViolations = [] then
    match i.toMission.validate with
    | .ok r => .ok r
    | .error e => .error [e]
  else
    .error i.fieldViolations

deriving instance DecidableEq for Except

/-! ## Cross-field success predicates (read off the validator conditions) -/

/-- All four cross-field rules of `AlienContact.validate` hold. -/
def AlienContact.crossOk (c : AlienContact) : Prop :=
  strStartsWith "AC" c.contact_id = true ∧ c.is_verified = true ∧
  ¬(c.contact_type = ContactType.TELEPATHIC ∧ c.witness_count < 3) ∧
  ¬(7 < c.signal_strength ∧ c.message_received = none)

instance : DecidablePred AlienContact.crossOk := fun c => by
  unfold AlienContact.crossOk; infer_instance

/-- All four cross-field rules of `SpaceMission.validate` hold. -/
def SpaceMission.crossOk (m : SpaceMission) : Prop :=
  strStartsWith "M" m.mission_id = true ∧
  ¬(m.crew ≠ [] ∧ hasCommandRank m.crew = false) ∧
  ¬(365 < m.duration_days ∧ experiencedCount m.crew * 2 < m.crew.length) ∧
  ¬(m.crew ≠ [] ∧ m.crew.any (fun cr => cr.is_active == false) = true)

instance : DecidablePred SpaceMission.crossOk := fun m => by
  unfold SpaceMission.crossOk; infer_instance

/-! ## Helper lemmas -/

theorem exists_error_of_ne_ok {ε α : Type} (x : Except ε α)
    (h : ∀ r, x ≠ .ok r) : ∃ e, x = .error e := by
  cases x with
  | error e => exact ⟨e, rfl⟩
  | ok r => exact absurd rfl (h r)

theorem AlienContact.validate_ok_iff (c r : AlienContact) :
    c.validate = .ok r ↔ r = c ∧ c.crossOk := by
  unfold AlienContact.validate AlienContact.crossOk
  split_ifs with h1 h2 h3 h4 <;> simp_all
  all_goals tauto

theorem AlienContact.validate_error_prefixRule (c : AlienContact)
    (h : strStartsWith "AC" c.contact_id = false) :
    c.validate = .error "Contact ID must start with 'AC'" := by
  unfold AlienContact.validate
  simp [h]

theorem AlienContact.validate_error_verifiedRule (c : AlienContact)
    (h1 : strStartsWith "AC" c.contact_id = true) (h2 : c.is_verified = false) :
    c.validate = .error "Physical contact reports must be verified" := by
  unfold AlienContact.validate
  simp [h1, h2]

theorem AlienContact.validate_error_witnessRule (c : AlienContact)
    (h1 : strStartsWith "AC" c.contact_id = true) (h2 : c.is_verified = true)
    (h3 : c.contact_type = ContactType.TELEPATHIC) (h4 : c.witness_count < 3) :
    c.validate = .error "Telepathic contact requires at least 3 witnesses" := by
  unfold AlienContact.validate
  simp [h1, h2, h3, h4]

theorem AlienContact.validate_error_signalRule (c : AlienContact)
    (h1 : strStartsWith "AC" c.contact_id = true) (h2 : c.is_verified = true)
    (h3 : ¬(c.contact_type = ContactType.TELEPATHIC ∧ c.witness_count < 3))
    (h4 : 7 < c.signal_strength) (h5 : c.message_received = none) :
    c.validate = .error "Strong signals (> 7.0) should include received messages" := by
  unfold AlienContact.validate
  simp [h1, h2, h3, h4, h5]

theorem AlienContact.construct_ok_iff (c r : AlienContact) :
    c.construct = .ok r ↔ c.fieldViolations = [] ∧ c.validate = .ok r := by
  unfold AlienContact.construct
  split_ifs with h
  · cases hv : c.validate <;> simp_all
  · simp_all

theorem AlienContact.construct_of_validate_error (c : AlienContact) (e : String)
    (h : c.fieldViolations = []) (hv : c.validate = .error e) :
    c.construct = .error [e] := by
  unfold AlienContact.construct
  simp [h, hv]

theorem SpaceMission.validateM_ok_iff (m r : SpaceMission) :
    m.validate = .ok r ↔ r = m ∧ m.crossOk := by
  unfold SpaceMission.validate SpaceMission.crossOk
  split_ifs with h1 h2 h3 h4 <;> simp_all
  all_goals tauto

theorem SpaceMission.validateM_error_prefixRule (m : SpaceMission)
    (h : strStartsWith "M" m.mission_id = false) :
    m.validate = .error "Mission ID must start with 'M'" := by
  unfold SpaceMission.validate
  simp [h]

theorem SpaceMission.validate_error_commandRule (m : SpaceMission)
    (h1 : strStartsWith "M" m.mission_id = true)
    (h2 : m.crew ≠ []) (h3 : hasCommandRank m.crew = false) :
    m.validate = .error "Must have at least one Commander or Captain" := by
  unfold SpaceMission.validate
  simp [h1, h2, h3]

theorem SpaceMission.validate_error_experienceRule (m : SpaceMission)
    (h1 : strStartsWith "M" m.mission_id = true)
    (h2 : ¬(m.crew ≠ [] ∧ hasCommandRank m.crew = false))
    (h3 : 365 < m.duration_days)
    (h4 : experiencedCount m.crew * 2 < m.crew.length) :
    m.validate = .error "Long missions (> 365 days) need 50% experienced crew (5+ years)" := by
  unfold SpaceMission.validate
  simp [h1, h2, h3, h4]

theorem SpaceMission.constructM_ok_iff (m r : SpaceMission) :
    m.construct = .ok r ↔ m.fieldViolations = [] ∧ m.validate = .ok r := by
  unfold SpaceMission.construct
  split_ifs with h
  · cases hv : m.validate <;> simp_all
  · simp_all

theorem SpaceMission.constructM_of_validate_error (m : SpaceMission) (e : String)
    (h : m.fieldViolations = []) (hv : m.validate = .error e) :
    m.construct = .error [e] := by
  unfold SpaceMission.construct
  simp [h, hv]

theorem SpaceMission.crew_violation_mem (m : SpaceMission)
    (h : ¬(1 ≤ m.crew.length ∧ m.crew.length ≤ 12)) :
    "crew: list length out of range 1..12" ∈ m.fieldViolations := by
  unfold SpaceMission.fieldViolations
  simp [h]

theorem SpaceMissionInput.fieldViolations_of_provided_crew (i : SpaceMissionInput)
    (l : List CrewMember) (h : i.crew = some l) :
    i.fieldViolations = i.toMission.fieldViolations := by
  unfold SpaceMissionInput.fieldViolations SpaceMissionInput.toMission
    SpaceMission.fieldViolations
  rw [h]
  simp [List.append_assoc]

/-! ## Concrete records used by the witnesses -/

/-- A contact passing every field constraint and every cross-field rule. -/
def contactDemo : AlienContact :=
  { contact_id := "AC_2024_001", timestamp := 0, location := "Area 51, Nevada",
    contact_type := ContactType.VISUAL, signal_strength := 8,
    duration_minutes := 45, message_received := some "Greetings from Zeta Reticuli",
    witness_count := 5, is_verified := true }

/-- `contactDemo` switched to telepathic contact with a given witness count. -/
def contactTele (wc : Int) : AlienContact :=
  { contactDemo with contact_type := ContactType.TELEPATHIC, witness_count := wc }

/-- `contactDemo` with a malformed identifier and no verification. -/
def contactWrong : AlienContact :=
  { contactDemo with contact_id := "WRONG_FORMAT", is_verified := false }

/-- `contactDemo` left unverified. -/
def contactUnverified : AlienContact :=
  { contactDemo with is_verified := false }

/-- `contactDemo` with its strong signal but no recorded message. -/
def contactNoMsg : AlienContact :=
  { contactDemo with message_received := none }

/-- `contactDemo` with signal strength exactly 7 and no recorded message. -/
def contactSeven : AlienContact :=
  { contactDemo with signal_strength := 7, message_received := none }

/-! ## Claims about ex1 -/

/-- C1: an unverified contact never validates: validation fails on every
field-valid record with `is_verified = false`, with the message
"Physical contact reports must be verified" whatever the contact type
(once the first-declared identifier rule passes, per the fail-fast
order), and no contact with `is_verified = false` is ever constructed. -/
theorem claim_C1 :
    (∀ c r : AlienContact, c.construct = .ok r → r.is_verified = true) ∧
    (∀ c : AlienContact, c.fieldViolations = [] → c.is_verified = false →
      (∃ e, c.validate = .error e) ∧
      (strStartsWith "AC" c.contact_id = true →
        c.validate = .error "Physical contact reports must be verified")) := by
  constructor
  · intro c r h
    rcases (AlienContact.construct_ok_iff c r).1 h with ⟨-, hv⟩
    rcases (AlienContact.validate_ok_iff c r).1 hv with ⟨rfl, -, hver, -⟩
    exact hver
  · intro c _ hver
    constructor
    · apply exists_error_of_ne_ok
      intro r h
      rcases (AlienContact.validate_ok_iff c r).1 h with ⟨-, -, hv, -⟩
      simp [hver] at hv
    · intro hpre
      exact c.validate_error_verifiedRule hpre hver

theorem claim_C1_witness :
    contactDemo.is_verified = true ∧
    contactUnverified.validate = .error "Physical contact reports must be verified" :=
  ⟨claim_C1.1 contactDemo contactDemo (by decide),
   (claim_C1.2 contactUnverified (by decide) (by decide)).2 (by decide)⟩

/-- C10: every successfully constructed contact has `is_verified = true`;
a contact built with every other field supplied and `is_verified` left to
its declared default (`false`) never constructs, whatever those fields. -/
theorem claim_C10 :
    (∀ c r : AlienContact, c.construct = .ok r → r.is_verified = true) ∧
    (∀ (cid : String) (ts : DateTime) (loc : String) (ty : ContactType)
       (ss : Rat) (dm : Int) (mr : Option String) (wc : Int) (r : AlienContact),
      AlienContact.construct
        { contact_id := cid, timestamp := ts, location := loc, contact_type := ty,
          signal_strength := ss, duration_minutes := dm, message_received := mr,
          witness_count := wc } ≠ .ok r) := by
  have key : ∀ c r : AlienContact, c.construct = .ok r → r.is_verified = true := by
    intro c r h
    rcases (AlienContact.construct_ok_iff c r).1 h with ⟨-, hv⟩
    rcases (AlienContact.validate_ok_iff c r).1 hv with ⟨rfl, -, hver, -⟩
    exact hver
  refine ⟨key, ?_⟩
  intro cid ts loc ty ss dm mr wc r h
  rcases (AlienContact.construct_ok_iff _ r).1 h with ⟨-, hv⟩
  rcases (AlienContact.validate_ok_iff _ r).1 hv with ⟨rfl, -, hver, -⟩
  simp at hver

theorem claim_C10_witness : contactDemo.is_verified = true :=
  claim_C10.1 contactDemo contactDemo (by decide)

/-- C6: a field-valid telepathic contact with fewer than 3 witnesses never
validates; when the earlier-declared identifier and verification rules
pass, the reported violation is the insufficient-witnesses one; the same
record with at least 3 witnesses and the remaining rule satisfied
constructs; and no witness-count violation is ever reported for a
non-telepathic contact. -/
theorem claim_C6 :
    (∀ c : AlienContact, c.contact_type = ContactType.TELEPATHIC →
      c.witness_count < 3 → ∃ e, c.validate = .error e) ∧
    (∀ c : AlienContact, c.fieldViolations = [] →
      strStartsWith "AC" c.contact_id = true → c.is_verified = true →
      c.contact_type = ContactType.TELEPATHIC →
      ((c.witness_count < 3 →
         c.validate = .error "Telepathic contact requires at least 3 witnesses") ∧
       (3 ≤ c.witness_count →
         ¬(7 < c.signal_strength ∧ c.message_received = none) →
         c.construct = .ok c))) ∧
    (∀ c : AlienContact, c.contact_type ≠ ContactType.TELEPATHIC →
      c.validate ≠ .error "Telepathic contact requires at least 3 witnesses") := by
  refine ⟨?_, ?_, ?_⟩
  · intro c hty hwc
    apply exists_error_of_ne_ok
    intro r h
    rcases (AlienContact.validate_ok_iff c r).1 h with ⟨-, -, -, hv, -⟩
    exact hv ⟨hty, hwc⟩
  · intro c hfv hpre hver hty
    constructor
    · intro hwc
      exact c.validate_error_witnessRule hpre hver hty hwc
    · intro hwc hsig
      refine (AlienContact.construct_ok_iff c c).2 ⟨hfv, ?_⟩
      exact (AlienContact.validate_ok_iff c c).2
        ⟨rfl, hpre, hver, fun h => absurd h.2 (not_lt.2 hwc), hsig⟩
  · intro c hty h
    unfold AlienContact.validate at h
    split_ifs at h with h1 h2 h3 h4 <;> simp_all

theorem claim_C6_witness :
    (contactTele 1).validate = .error "Telepathic contact requires at least 3 witnesses" ∧
    (contactTele 3).construct = .ok (contactTele 3) ∧
    contactDemo.validate ≠ .error "Telepathic contact requires at least 3 witnesses" :=
  ⟨(claim_C6.2.1 (contactTele 1) (by decide) (by decide) (by decide) (by decide)).1 (by decide),
   (claim_C6.2.1 (contactTele 3) (by decide) (by decide) (by decide) (by decide)).2
     (by decide) (by decide),
   claim_C6.2.2 contactDemo (by decide)⟩

/-- C7: a field-valid contact with signal strength above 7 and no recorded
message never validates; when the three earlier-declared rules pass, the
reported violation is the strong-signal one; a signal of exactly 7 with
no message never yields that violation, and neither does any contact
whose message is present. -/
theorem claim_C7 :
    (∀ c : AlienContact, 7 < c.signal_strength → c.message_received = none →
      ∃ e, c.validate = .error e) ∧
    (∀ c : AlienContact, c.fieldViolations = [] →
      strStartsWith "AC" c.contact_id = true → c.is_verified = true →
      ¬(c.contact_type = ContactType.TELEPATHIC ∧ c.witness_count < 3) →
      7 < c.signal_strength → c.message_received = none →
      c.validate = .error "Strong signals (> 7.0) should include received messages") ∧
    (∀ c : AlienContact, c.signal_strength = 7 → c.message_received = none →
      c.validate ≠ .error "Strong signals (> 7.0) should include received messages") ∧
    (∀ c : AlienContact, ∀ s, c.message_received = some s →
      c.validate ≠ .error "Strong signals (> 7.0) should include received messages") := by
  refine ⟨?_, ?_, ?_, ?_⟩
  · intro c hss hmr
    apply exists_error_of_ne_ok
    intro r h
    rcases (AlienContact.validate_ok_iff c r).1 h with ⟨-, -, -, -, hv⟩
    exact hv ⟨hss, hmr⟩
  · intro c _ hpre hver htel hss hmr
    exact c.validate_error_signalRule hpre hver htel hss hmr
  · intro c hss hmr h
    unfold AlienContact.validate at h
    split_ifs at h with h1 h2 h3 h4 <;> simp_all
  · intro c s hmr h
    unfold AlienContact.validate at h
    split_ifs at h with h1 h2 h3 h4 <;> simp_all

theorem claim_C7_witness :
    contactNoMsg.validate = .error "Strong signals (> 7.0) should include received messages" ∧
    contactSeven.validate ≠ .error "Strong signals (> 7.0) should include received messages" ∧
    contactDemo.validate ≠ .error "Strong signals (> 7.0) should include received messages" :=
  ⟨claim_C7.2.1 contactNoMsg (by decide) (by decide) (by decide) (by decide)
     (by decide) (by decide),
   claim_C7.2.2.1 contactSeven (by decide) (by decide),
   claim_C7.2.2.2 contactDemo "Greetings from Zeta Reticuli" (by decide)⟩

/-- Stated from the claim's words (spec §4.2 ordering): the messages of
the violated cross-field contact rules, in first-declared-first order —
identifier rule, verification rule, telepathic-witnesses rule,
strong-signal rule. Compared against `AlienContact.validate` in C8. -/
def AlienContact.declaredViolations (c : AlienContact) : List String :=
  (if strStartsWith "AC" c.contact_id = false then
    ["Contact ID must start with 'AC'"] else []) ++
  (if c.is_verified = false then
    ["Physical contact reports must be verified"] else []) ++
  (if c.contact_type = ContactType.TELEPATHIC ∧ c.witness_count < 3 then
    ["Telepathic contact requires at least 3 witnesses"] else []) ++
  (if 7 < c.signal_strength ∧ c.message_received = none then
    ["Strong signals (> 7.0) should include received messages"] else [])

/-- C8: cross-field evaluation is fail-fast in declared order: on any
field-valid contact violating at least one rule (in particular more than
one), the single reported violation is the first-declared violated one;
concretely, a record with `contact_id = "WRONG_FORMAT"` and
`is_verified = false` reports the identifier violation, not the
verification one. -/
theorem claim_C8 :
    (∀ c : AlienContact, c.fieldViolations = [] → ∀ e es,
      c.declaredViolations = e :: es → c.validate = .error e) ∧
    (∀ c : AlienContact, c.fieldViolations = [] → c.contact_id = "WRONG_FORMAT" →
      c.is_verified = false → c.validate = .error "Contact ID must start with 'AC'") := by
  constructor
  · intro c _ e es h
    unfold AlienContact.declaredViolations at h
    by_cases h1 : strStartsWith "AC" c.contact_id = false
    · simp only [h1, if_pos] at h
      rw [c.validate_error_prefixRule h1]
      simp_all
    · rw [Bool.not_eq_false] at h1
      by_cases h2 : c.is_verified = false
      · simp [h1, h2] at h
        rw [c.validate_error_verifiedRule h1 h2]
        simp_all
      · rw [Bool.not_eq_false] at h2
        by_cases h3 : c.contact_type = ContactType.TELEPATHIC ∧ c.witness_count < 3
        · simp [h1, h2, h3] at h
          rw [c.validate_error_witnessRule h1 h2 h3.1 h3.2]
          simp_all
        · by_cases h4 : 7 < c.signal_strength ∧ c.message_received = none
          · simp [h1, h2, h3, h4] at h
            rw [c.validate_error_signalRule h1 h2 h3 h4.1 h4.2]
            simp_all
          · simp [h1, h2, h3, h4] at h
  · intro c _ hid hver
    apply c.validate_error_prefixRule
    rw [hid]
    decide

theorem claim_C8_witness :
    contactWrong.validate = .error "Contact ID must start with 'AC'" ∧
    contactUnverified.validate = .error "Physical contact reports must be verified" :=
  ⟨claim_C8.2 contactWrong (by decide) (by decide) (by decide),
   claim_C8.1 contactUnverified (by decide)
     "Physical contact reports must be verified" [] (by decide)⟩

/-- Builds a crew member with the default `is_active := true`. -/
def mkMember (id nm : String) (r : Rank) (a : Int) (sp : String) (e : Int) : CrewMember :=
  { member_id := id, name := nm, rank := r, age := a,
    specialization := sp, years_experience := e }

/-- A mission crew led by a commander, all three members with strictly
more than 5 years of experience. -/
def crewDemo : List CrewMember :=
  [mkMember "CM001" "Sarah Connor" Rank.COMMANDER 45 "Mission Command" 20,
   mkMember "CM002" "John Smith" Rank.LIEUTENANT 38 "Navigation" 12,
   mkMember "CM003" "Alice Johnson" Rank.OFFICER 32 "Engineering" 8]

/-- A long mission passing every field constraint and every cross-field
rule. -/
def missionDemo : SpaceMission :=
  { mission_id := "M2024_MARS", mission_name := "Mars Colony Establishment",
    destination := "Mars", launch_date := 0, duration_days := 900,
    crew := crewDemo, budget_millions := 2500 }

/-- `missionDemo` with only the commander above 5 years of experience. -/
def missionExp1 : SpaceMission :=
  { missionDemo with crew :=
    [mkMember "CM001" "Sarah Connor" Rank.COMMANDER 45 "Mission Command" 20,
     mkMember "CM002" "John Smith" Rank.LIEUTENANT 38 "Navigation" 2,
     mkMember "CM003" "Alice Johnson" Rank.OFFICER 32 "Engineering" 2] }

/-- `missionDemo` with two of three members at exactly 5 years of
experience (the boundary Scenario D reads as experienced). -/
def missionScenD : SpaceMission :=
  { missionDemo with crew :=
    [mkMember "CM001" "Sarah Connor" Rank.COMMANDER 45 "Mission Command" 5,
     mkMember "CM002" "John Smith" Rank.LIEUTENANT 38 "Navigation" 5,
     mkMember "CM003" "Alice Johnson" Rank.OFFICER 32 "Engineering" 2] }

/-- A short mission whose crew holds no command rank. -/
def missionNoCmd : SpaceMission :=
  { missionDemo with mission_id := "M2024_MOON", duration_days := 180, crew :=
    [mkMember "CM004" "Bob Williams" Rank.OFFICER 30 "Engineering" 5,
     mkMember "CM005" "Jane Doe" Rank.CADET 25 "Research" 2] }

/-- `missionDemo` with an empty crew list. -/
def missionEmptyCrew : SpaceMission :=
  { missionDemo with crew := [] }

/-- A raw mission input omitting the `crew` field (and `mission_status`),
every provided field within its bounds. -/
def missionInputNoCrew : SpaceMissionInput :=
  { mission_id := "M2024_MARS", mission_name := "Mars Colony Establishment",
    destination := "Mars", launch_date := 0, duration_days := 900,
    budget_millions := 2500 }

/-- The same raw input with the demo crew explicitly provided. -/
def missionInputCrewed : SpaceMissionInput :=
  { missionInputNoCrew with crew := some crewDemo }

/-! ## Claims about ex2 -/

/-- C2: a field-valid mission longer than 365 days validates only when
twice the number of crew members with strictly more than 5 years of
experience reaches the crew size; below that threshold validation fails,
with the long-mission violation whenever the two earlier-declared rules
pass; and a mission of at most 365 days never reports that violation. -/
theorem claim_C2 :
    (∀ m : SpaceMission, m.fieldViolations = [] → 365 < m.duration_days →
      ((∀ r, m.validate = .ok r → m.crew.length ≤ experiencedCount m.crew * 2) ∧
       (experiencedCount m.crew * 2 < m.crew.length →
         (∃ e, m.validate = .error e) ∧
         (strStartsWith "M" m.mission_id = true →
          ¬(m.crew ≠ [] ∧ hasCommandRank m.crew = false) →
          m.validate =
            .error "Long missions (> 365 days) need 50% experienced crew (5+ years)")))) ∧
    (∀ m : SpaceMission, m.duration_days ≤ 365 →
      m.validate ≠
        .error "Long missions (> 365 days) need 50% experienced crew (5+ years)") := by
  constructor
  · intro m _ hdur
    constructor
    · intro r h
      rcases (SpaceMission.validateM_ok_iff m r).1 h with ⟨-, -, -, hexp, -⟩
      by_contra hlt
      exact hexp ⟨hdur, not_le.1 hlt⟩
    · intro hlt
      constructor
      · apply exists_error_of_ne_ok
        intro r h
        rcases (SpaceMission.validateM_ok_iff m r).1 h with ⟨-, -, -, hexp, -⟩
        exact hexp ⟨hdur, hlt⟩
      · intro hpre hcmd
        exact m.validate_error_experienceRule hpre hcmd hdur hlt
  · intro m hdur h
    unfold SpaceMission.validate at h
    split_ifs at h with h1 h2 h3 h4 <;> simp_all
    omega

theorem claim_C2_witness :
    missionExp1.validate =
      .error "Long missions (> 365 days) need 50% experienced crew (5+ years)" ∧
    missionNoCmd.validate ≠
      .error "Long missions (> 365 days) need 50% experienced crew (5+ years)" :=
  ⟨((claim_C2.1 missionExp1 (by decide) (by decide)).2 (by decide)).2
     (by decide) (by decide),
   claim_C2.2 missionNoCmd (by decide)⟩

/-- C3 counterexample: Scenario D read literally fails on the code: this
field-valid mission of 900 days with a crew of 3 — a COMMANDER aboard,
everyone active, and 2 of the 3 members with `years_experience ≥ 5`
(both at exactly 5) — is rejected by the long-mission rule, because the
code counts only experience strictly greater than 5. -/
theorem claim_C3_counterexample :
    missionScenD.fieldViolations = [] ∧
    missionScenD.duration_days = 900 ∧
    missionScenD.crew.length = 3 ∧
    (∃ cr ∈ missionScenD.crew, cr.rank = Rank.COMMANDER) ∧
    2 ≤ (missionScenD.crew.countP fun cr => decide (5 ≤ cr.years_experience)) ∧
    (∀ cr ∈ missionScenD.crew, cr.is_active = true) ∧
    (∀ r, missionScenD.construct ≠ .ok r) ∧
    missionScenD.construct =
      .error ["Long missions (> 365 days) need 50% experienced crew (5+ years)"] := by
  have h : missionScenD.construct =
      .error ["Long missions (> 365 days) need 50% experienced crew (5+ years)"] := by
    decide
  exact ⟨by decide, by decide, by decide, by decide, by decide, by decide,
    fun r hr => by simp [h] at hr, h⟩

/-- C3 as amended: with experience counted strictly (more than 5 years, as
the code does), a field-valid 900-day mission with a crew of 3 holding a
command rank and all active constructs successfully when at least 2 of
the 3 are experienced, and fails with the long-mission violation when at
most 1 is. -/
theorem claim_C3_amended :
    ∀ m : SpaceMission, m.fieldViolations = [] →
      strStartsWith "M" m.mission_id = true →
      m.duration_days = 900 →
      m.crew.length = 3 →
      hasCommandRank m.crew = true →
      (∀ cr ∈ m.crew, cr.is_active = true) →
      ((2 ≤ experiencedCount m.crew → m.construct = .ok m) ∧
       (experiencedCount m.crew ≤ 1 →
         m.construct =
           .error ["Long missions (> 365 days) need 50% experienced crew (5+ years)"])) := by
  intro m hfv hpre hdur hlen hcmd hact
  constructor
  · intro hexp
    refine (SpaceMission.constructM_ok_iff m m).2
      ⟨hfv, (SpaceMission.validateM_ok_iff m m).2 ⟨rfl, hpre, ?_, ?_, ?_⟩⟩
    · rintro ⟨-, hc⟩
      simp [hcmd] at hc
    · rintro ⟨-, hlt⟩
      omega
    · rintro ⟨-, hany⟩
      rcases List.any_eq_true.1 hany with ⟨cr, hmem, hcr⟩
      simp [hact cr hmem] at hcr
  · intro hexp
    apply SpaceMission.constructM_of_validate_error m _ hfv
    exact m.validate_error_experienceRule hpre
      (by rintro ⟨-, hc⟩; simp [hcmd] at hc) (by omega) (by omega)

theorem claim_C3_witness :
    missionDemo.construct = .ok missionDemo ∧
    missionExp1.construct =
      .error ["Long missions (> 365 days) need 50% experienced crew (5+ years)"] :=
  ⟨(claim_C3_amended missionDemo (by decide) (by decide) (by decide) (by decide)
      (by decide) (by decide)).1 (by decide),
   (claim_C3_amended missionExp1 (by decide) (by decide) (by decide) (by decide)
      (by decide) (by decide)).2 (by decide)⟩

/-- C4: a field-valid mission with a non-empty crew holding neither a
COMMANDER nor a CAPTAIN never validates — with the missing-command-rank
violation whenever the earlier-declared identifier rule passes — while on
an empty crew list the command-rank rule never fires: no such violation
is ever reported. -/
theorem claim_C4 :
    (∀ m : SpaceMission, m.fieldViolations = [] → m.crew ≠ [] →
      hasCommandRank m.crew = false →
      (∃ e, m.validate = .error e) ∧
      (strStartsWith "M" m.mission_id = true →
        m.validate = .error "Must have at least one Commander or Captain")) ∧
    (∀ m : SpaceMission, m.crew = [] →
      m.validate ≠ .error "Must have at least one Commander or Captain") := by
  constructor
  · intro m _ hne hcmd
    constructor
    · apply exists_error_of_ne_ok
      intro r h
      rcases (SpaceMission.validateM_ok_iff m r).1 h with ⟨-, -, hc, -⟩
      exact hc ⟨hne, hcmd⟩
    · intro hpre
      exact m.validate_error_commandRule hpre hne hcmd
  · intro m hcrew h
    unfold SpaceMission.validate at h
    split_ifs at h with h1 h2 h3 h4 <;> simp_all

theorem claim_C4_witness :
    missionNoCmd.validate = .error "Must have at least one Commander or Captain" ∧
    missionEmptyCrew.validate ≠ .error "Must have at least one Commander or Captain" :=
  ⟨(claim_C4.1 missionNoCmd (by decide) (by decide) (by decide)).2 (by decide),
   claim_C4.2 missionEmptyCrew (by decide)⟩

/-- C5: any input satisfying every field constraint and every cross-field
rule constructs successfully, and the constructed record is the input
record itself — field for field — for contacts and missions alike. -/
theorem claim_C5 :
    (∀ c : AlienContact, c.fieldViolations = [] → c.crossOk → c.construct = .ok c) ∧
    (∀ m : SpaceMission, m.fieldViolations = [] → m.crossOk → m.construct = .ok m) := by
  constructor
  · intro c hfv hok
    exact (AlienContact.construct_ok_iff c c).2
      ⟨hfv, (AlienContact.validate_ok_iff c c).2 ⟨rfl, hok⟩⟩
  · intro m hfv hok
    exact (SpaceMission.constructM_ok_iff m m).2
      ⟨hfv, (SpaceMission.validateM_ok_iff m m).2 ⟨rfl, hok⟩⟩

theorem claim_C5_witness :
    contactDemo.construct = .ok contactDemo ∧
    missionDemo.construct = .ok missionDemo :=
  ⟨claim_C5.1 contactDemo (by decide) (by decide),
   claim_C5.2 missionDemo (by decide) (by decide)⟩

/-- C9 counterexample: pydantic does not validate declared defaults, so
this raw input omitting `crew`, with every provided field within its
bounds, constructs successfully — yielding a mission with 0 crew
members, against both the claimed 1–12 invariant and the claimed field
violation on an input omitting the crew field. -/
theorem claim_C9_counterexample :
    missionInputNoCrew.crew = none ∧
    missionInputNoCrew.construct = .ok missionInputNoCrew.toMission ∧
    missionInputNoCrew.toMission.crew.length = 0 :=
  ⟨rfl, by decide, by decide⟩

/-- C9 as amended: a mission constructed from explicitly provided field
values carries between 1 and 12 crew members, and an explicitly
provided crew list with 0 or more than 12 entries fails construction
with the aggregated field violations, among them the one naming `crew`;
construction from a raw input whose `crew` is provided agrees with
construction from the assembled record; but an input omitting `crew` is
not length-checked (pydantic skips validation of defaults): when its
provided fields are in bounds and the identifier rule passes, it
constructs successfully with the defaulted empty crew. -/
theorem claim_C9_amended :
    (∀ m r : SpaceMission, m.construct = .ok r →
      1 ≤ r.crew.length ∧ r.crew.length ≤ 12) ∧
    (∀ m : SpaceMission, m.crew.length = 0 ∨ 12 < m.crew.length →
      "crew: list length out of range 1..12" ∈ m.fieldViolations ∧
      m.construct = .error m.fieldViolations) ∧
    (∀ i : SpaceMissionInput, ∀ l, i.crew = some l →
      i.construct = i.toMission.construct) ∧
    (∀ i : SpaceMissionInput, i.crew = none → i.fieldViolations = [] →
      strStartsWith "M" i.mission_id = true →
      i.construct = .ok i.toMission ∧ i.toMission.crew = []) := by
  refine ⟨?_, ?_, ?_, ?_⟩
  · intro m r h
    rcases (SpaceMission.constructM_ok_iff m r).1 h with ⟨hfv, hv⟩
    rcases (SpaceMission.validateM_ok_iff m r).1 hv with ⟨heq, -⟩
    subst heq
    by_contra hb
    exact List.ne_nil_of_mem (SpaceMission.crew_violation_mem _ hb) hfv
  · intro m hlen
    have hb : ¬(1 ≤ m.crew.length ∧ m.crew.length ≤ 12) := by omega
    have hmem := m.crew_violation_mem hb
    refine ⟨hmem, ?_⟩
    unfold SpaceMission.construct
    simp [List.ne_nil_of_mem hmem]
  · intro i l h
    unfold SpaceMissionInput.construct SpaceMission.construct
    rw [SpaceMissionInput.fieldViolations_of_provided_crew i l h]
  · intro i hnone hfv hpre
    have hcrew : i.toMission.crew = [] := by
      unfold SpaceMissionInput.toMission
      simp [hnone]
    have hval : i.toMission.validate = .ok i.toMission := by
      refine (SpaceMission.validateM_ok_iff _ _).2 ⟨rfl, ?_, ?_, ?_, ?_⟩
      · exact hpre
      · rintro ⟨hne, -⟩
        exact hne hcrew
      · rintro ⟨-, hlt⟩
        rw [hcrew] at hlt
        simp [experiencedCount] at hlt
      · rintro ⟨hne, -⟩
        exact hne hcrew
    refine ⟨?_, hcrew⟩
    unfold SpaceMissionInput.construct
    simp [hfv, hval]

theorem claim_C9_witness :
    (1 ≤ missionDemo.crew.length ∧ missionDemo.crew.length ≤ 12) ∧
    ("crew: list length out of range 1..12" ∈ missionEmptyCrew.fieldViolations ∧
     missionEmptyCrew.construct = .error missionEmptyCrew.fieldViolations) ∧
    missionInputCrewed.construct = missionInputCrewed.toMission.construct ∧
    (missionInputNoCrew.construct = .ok missionInputNoCrew.toMission ∧
     missionInputNoCrew.toMission.crew = []) :=
  ⟨claim_C9_amended.1 missionDemo missionDemo (by decide),
   claim_C9_amended.2.1 missionEmptyCrew (Or.inl (by decide)),
   claim_C9_amended.2.2.1 missionInputCrewed crewDemo rfl,
   claim_C9_amended.2.2.2 missionInputNoCrew rfl (by decide) (by decide)⟩

end CosmicValidation
